import Mathlib

/-!
Verification of the SSVG convenience layer (src/ssvg.js).

The development shallowly embeds the two source components:

* `SSVGProxyHandler.get` / `SSVGProxyHandler.set` (the interception handler)
  become `handlerGet` / `handlerSet`; the creator closure the get trap
  returns becomes the explicit step function `callCreator`.
* The wrapper constructors `SSVG` / `SSVGElementProxy` become `newSSVG` and
  `wrapElement`.

The host environment (the browser DOM and the ECMAScript object model) is
modelled explicitly: a `State` carries the document tree (a list of nodes
indexed by `NodeId`) together with the own JS properties of the session
object and of each node; `windowGlobals` is the set of `SVG*Element`
interface names a browser window exposes, queried by the handler's
element-kind validity test.
-/

namespace SSVG

/-- Identifier of a host DOM node: its index in `State.nodes`. -/
abbrev NodeId := Nat

/-- Identity of a wrapped object: either the SSVG session instance (the
proxy target built by `new SSVG`) or a host element node. -/
inductive Target where
  | session : Target
  | elem : NodeId → Target
deriving DecidableEq, Repr

/-- JS values as far as this layer manipulates them.  `fn f b` is a host
function named `f`, bound (via `Function.prototype.bind`) to `b` when
`b = some t`; `creator isCreate t k` is the closure the get trap returns,
capturing the create marker, the proxy target and the lower-cased element
name; `handle t` is a proxy wrapper around `t`. -/
inductive JSValue where
  | undefined : JSValue
  | str : String → JSValue
  | num : Int → JSValue
  | node : NodeId → JSValue
  | fn : String → Option Target → JSValue
  | creator : Bool → Target → String → JSValue
  | handle : Target → JSValue
deriving DecidableEq, Repr

/-- The only error class this layer can provoke in the host: a JS
`TypeError` (calling a non-function, or a strict-mode assignment whose
proxy set trap reported failure). -/
inductive JSError where
  | typeError : JSError
deriving DecidableEq, Repr

/-- View of an `Except` as a sum, to derive decidable equality. -/
def exceptToSum {ε α : Type} : Except ε α → ε ⊕ α
  | .error e => .inl e
  | .ok a => .inr a

instance {ε α : Type} [DecidableEq ε] [DecidableEq α] : DecidableEq (Except ε α) :=
  fun a b =>
    decidable_of_iff (exceptToSum a = exceptToSum b)
      (by cases a <;> cases b <;> simp [exceptToSum])

/-- Own-property descriptor, as consulted by
`Object.getOwnPropertyDescriptor` in the set trap. -/
structure PropDesc where
  writable : Bool
  value : JSValue
deriving DecidableEq, Repr

/-- A host DOM node: local tag name, attribute list (ordered, unique keys),
child list, parent link, and its own JS properties (the `root` escape hatch
installed by `SSVGElementProxy` lives here). -/
structure DomNode where
  localName : String
  attrs : List (String × String)
  children : List NodeId
  parent : Option NodeId
  props : List (String × PropDesc)
deriving DecidableEq, Repr

/-- Whole-world state: the document's nodes and the own JS properties of
the SSVG session instance (notably its writable `root` class field). -/
structure State where
  nodes : List DomNode
  sessionProps : List (String × PropDesc)
deriving DecidableEq, Repr

/-! ## Host primitives (the external DOM collaborators) -/

/-- Look a property name up in an own-property list. -/
def lookupProp (props : List (String × PropDesc)) (name : String) : Option PropDesc :=
  (props.find? (fun p => p.1 == name)).map (fun p => p.2)

/-- DOM `setAttribute` on an attribute list: replace the existing entry in
place, else append a new entry at the end. -/
def setAttrList : List (String × String) → String → String → List (String × String)
  | [], n, v => [(n, v)]
  | p :: rest, n, v => if p.1 == n then (n, v) :: rest else p :: setAttrList rest n v

/-- DOM `getAttribute` on an attribute list (`none` models a null result). -/
def getAttrList (attrs : List (String × String)) (name : String) : Option String :=
  (attrs.find? (fun p => p.1 == name)).map (fun p => p.2)

/-- Read node `i` of the document, when it exists. -/
def getNode? (st : State) (i : NodeId) : Option DomNode := st.nodes[i]?

/-- Apply `f` to node `i` of the document (identity when `i` is out of
range, which never happens for live node ids). -/
def updateNode (st : State) (i : NodeId) (f : DomNode → DomNode) : State :=
  match st.nodes[i]? with
  | some nd => { st with nodes := st.nodes.set i (f nd) }
  | none => st

/-- Host `elem.setAttribute(name, val)` (value already string-coerced). -/
def setAttribute (st : State) (i : NodeId) (name val : String) : State :=
  updateNode st i (fun nd => { nd with attrs := setAttrList nd.attrs name val })

/-- A node as `document.createElementNS(svgns, localName)` returns it: no
attributes, no children, no parent, no own JS properties. -/
def freshNode (localName : String) : DomNode :=
  { localName := localName, attrs := [], children := [], parent := none, props := [] }

/-- Host `document.createElementNS(svgns, localName)`: allocates a fresh
detached node and returns its id. -/
def createElementNS (st : State) (localName : String) : State × NodeId :=
  ({ st with nodes := st.nodes ++ [freshNode localName] }, st.nodes.length)

/-- First step of host `parent.append(child)`: detach `child` from its
current parent, if any. -/
def removeFromParent (st : State) (child : NodeId) : State :=
  match getNode? st child with
  | some nd =>
    match nd.parent with
    | some p =>
      updateNode (updateNode st p
        (fun pd => { pd with children := pd.children.filter (fun c => c != child) }))
        child (fun cd => { cd with parent := none })
    | none => st
  | none => st

/-- Host `parentNode.append(child)`: move `child` to be the last child of
`parent`. -/
def domAppend (st : State) (parent child : NodeId) : State :=
  updateNode
    (updateNode (removeFromParent st child) parent
      (fun pd => { pd with children := pd.children ++ [child] }))
    child (fun cd => { cd with parent := some parent })

/-- Host string coercion (ECMAScript ToString) as far as this layer's
contract exercises it: numbers render in decimal, strings pass through.
The object cases are host-rendered tags whose exact text the layer never
depends on. -/
def jsToString : JSValue → String
  | .undefined => "undefined"
  | .str s => s
  | .num n => toString n
  | .node _ => "[object SVGElement]"
  | .fn f _ => f
  | .creator _ _ _ => "[function]"
  | .handle _ => "[object SVGElement]"

/-- Set of `SVG*Element` interface names that are own properties of a
browser `window` (the host's global object), as queried by
`window.hasOwnProperty` in the get trap. -/
def windowGlobals : List String :=
  ["SVGElement", "SVGSVGElement", "SVGAElement", "SVGAnimateElement",
   "SVGAnimateMotionElement", "SVGAnimateTransformElement", "SVGCircleElement",
   "SVGClipPathElement", "SVGDefsElement", "SVGDescElement", "SVGEllipseElement",
   "SVGFilterElement", "SVGForeignObjectElement", "SVGGElement",
   "SVGGeometryElement", "SVGGradientElement", "SVGGraphicsElement",
   "SVGImageElement", "SVGLineElement", "SVGLinearGradientElement",
   "SVGMarkerElement", "SVGMaskElement", "SVGMetadataElement", "SVGPathElement",
   "SVGPatternElement", "SVGPolygonElement", "SVGPolylineElement",
   "SVGRadialGradientElement", "SVGRectElement", "SVGScriptElement",
   "SVGSetElement", "SVGStopElement", "SVGStyleElement", "SVGSwitchElement",
   "SVGSymbolElement", "SVGTSpanElement", "SVGTextContentElement",
   "SVGTextElement", "SVGTextPathElement", "SVGTextPositioningElement",
   "SVGTitleElement", "SVGUseElement", "SVGViewElement"]

/-- Host `window.hasOwnProperty(name)`. -/
def windowHasOwn (name : String) : Bool := windowGlobals.contains name

/-! ## The regex match of the get trap -/

/-- Character class `\w` of the source regex: ASCII letters, digits, `_`. -/
def isWordChar (c : Char) : Bool := c.isAlpha || c.isDigit || c == '_'

/-- Head of a character list is a word character. -/
def wordHead : List Char → Bool
  | [] => false
  | c :: _ => isWordChar c

/-- Unanchored match of the source regex `(create)?(\w+)` against a
character list: at each position, the optional greedy `(create)?` group
matches when the text reads `create` followed by at least one further word
character (otherwise the engine backtracks and `(\w+)` consumes from the
current position); the result pairs the marker group's success with the
`(\w+)` capture. `none` models a null match (no word character at all). -/
def matchCreateWord : List Char → Option (Bool × List Char)
  | [] => none
  | c :: cs =>
    if (List.take 6 (c :: cs) == "create".toList) && wordHead (List.drop 6 (c :: cs)) then
      some (true, List.takeWhile isWordChar (List.drop 6 (c :: cs)))
    else if isWordChar c then
      some (false, List.takeWhile isWordChar (c :: cs))
    else
      matchCreateWord cs

/-- The destructuring `let [_, isCreate, elemName] = propName.match(...)`:
`none` corresponds to a null match, on which the destructuring throws. -/
def parsePropName (s : String) : Option (Bool × String) :=
  (matchCreateWord s.toList).map (fun p => (p.1, String.mk p.2))

/-- JS `elemName.toLowerCase()`, character by character (the ASCII range,
which covers every element token). -/
def toLowerStr (s : String) : String := String.mk (s.toList.map Char.toLower)

/-- JS `elemName[0].toUpperCase() + elemName.slice(1)`. -/
def capitalize (s : String) : String :=
  match s.toList with
  | [] => ""
  | c :: cs => String.mk (c.toUpper :: cs)

/-- The candidate interface name formed by the get trap. -/
def className (elemName : String) : String :=
  "SVG" ++ capitalize elemName ++ "Element"

/-! ## Ordinary property resolution on the wrapped targets -/

/-- Own JS properties of a target: the session's instance fields, or the
node's own properties. -/
def ownProps (st : State) (t : Target) : List (String × PropDesc) :=
  match t with
  | .session => st.sessionProps
  | .elem i =>
    match getNode? st i with
    | some nd => nd.props
    | none => []

/-- Prototype-inherited properties. The session instance's prototype chain
(`SSVG.prototype`, `Object.prototype`) contributes nothing this layer
touches; an element's prototype chain supplies the DOM methods the source
uses. -/
def protoProps : Target → List (String × PropDesc)
  | .session => []
  | .elem _ =>
    [("setAttribute", ⟨false, .fn "setAttribute" none⟩),
     ("getAttribute", ⟨false, .fn "getAttribute" none⟩),
     ("append", ⟨false, .fn "append" none⟩),
     ("remove", ⟨false, .fn "remove" none⟩)]

/-- Ordinary JS property lookup `instance[propName]`: own properties first,
then the prototype chain, else `undefined`. -/
def getProp (st : State) (t : Target) (name : String) : JSValue :=
  match lookupProp (ownProps st t) name with
  | some d => d.value
  | none =>
    match lookupProp (protoProps t) name with
    | some d => d.value
    | none => .undefined

/-- JS `typeof prop == 'function'`. -/
def isCallable : JSValue → Bool
  | .fn _ _ => true
  | .creator _ _ _ => true
  | _ => false

/-- JS `prop.bind(instance)`. Host functions record their bound receiver;
a creator closure captures its instance lexically and ignores `this`, so
binding leaves its behaviour unchanged; other values are untouched (the
trap only binds callables). -/
def bindTo (t : Target) : JSValue → JSValue
  | .fn f _ => .fn f (some t)
  | v => v

/-! ## The interception handler -/

/-- `SSVGProxyHandler.get(instance, propName)`: parse the name with
`(create)?(\w+)`, form `SVG<Kind>Element`, test it against the window's
globals; on failure fall through to ordinary property resolution (binding
callables to the instance), on success return the creator closure over the
lower-cased element name.  A null regex match makes the destructuring
throw a TypeError. -/
def handlerGet (st : State) (t : Target) (propName : String) : Except JSError JSValue :=
  match parsePropName propName with
  | none => .error .typeError
  | some (isCreate, elemName0) =>
    let validElement := windowHasOwn (className elemName0)
    let elemName := toLowerStr elemName0
    if !validElement then
      let prop := getProp st t propName
      if isCallable prop then .ok (bindTo t prop) else .ok prop
    else
      .ok (.creator isCreate t elemName)

/-- `SSVGElementProxy(elem)`: wrap the element in a proxy and define a
non-configurable, non-writable own property `root` holding the element
itself.  The handler has no defineProperty trap, so the definition lands
on the target node.  Freshly created nodes carry no `root` property, so on
every reachable input this adds the property (on a node already carrying
one with the same value, the host definition is a no-op, which the
identity branch mirrors). -/
def wrapElement (st : State) (i : NodeId) : State :=
  updateNode st i (fun nd =>
    if nd.props.any (fun p => p.1 == "root") then nd
    else { nd with props := nd.props ++ [("root", ⟨false, .node i⟩)] })

/-- The attribute loop shared by the creator closure and the `SSVG`
constructor: `for (let [attrName, attrVal] of Object.entries(attrs))
node.setAttribute(attrName, attrVal)`, values string-coerced by the host.
A JS object's entries are modelled as the association list `attrs`, whose
order is the object's own iteration order and whose keys are unique. -/
def setAttrsFold (st : State) (i : NodeId) (attrs : List (String × JSValue)) : State :=
  attrs.foldl (fun s p => setAttribute s i p.1 (jsToString p.2)) st

/-- Calling the creator closure the get trap returned: create a namespaced
node of the captured (lower-cased) element name, apply every entry of the
attribute mapping via host `setAttribute` (values string-coerced), then —
when the accessed name carried no `create` marker — append the node as the
last child of `instance.root`, and finally wrap the node in a new
`SSVGElementProxy`.  When `instance.root` is not a node, the host `append`
call throws a TypeError. -/
def callCreator (st : State) (isCreate : Bool) (t : Target) (elemName : String)
    (attrs : List (String × JSValue)) : State × Except JSError JSValue :=
  let newId := (createElementNS st elemName).2
  let st2 := setAttrsFold (createElementNS st elemName).1 newId attrs
  if isCreate then
    (wrapElement st2 newId, .ok (.handle (.elem newId)))
  else
    match getProp st2 t "root" with
    | .node pid => (wrapElement (domAppend st2 pid newId) newId, .ok (.handle (.elem newId)))
    | _ => (st2, .error .typeError)

/-- Own-property assignment `instance[propName] = val` in the writable
branch of the set trap (the descriptor exists, so this updates in place). -/
def setOwnProps : List (String × PropDesc) → String → JSValue → List (String × PropDesc)
  | [], _, _ => []
  | p :: rest, name, v =>
    if p.1 == name then (p.1, ⟨p.2.writable, v⟩) :: rest
    else p :: setOwnProps rest name v

/-- Own-property assignment on a target. -/
def setOwnProp (st : State) (t : Target) (name : String) (v : JSValue) : State :=
  match t with
  | .session => { st with sessionProps := setOwnProps st.sessionProps name v }
  | .elem i => updateNode st i (fun nd => { nd with props := setOwnProps nd.props name v })

/-- The call `instance.setAttribute(propName, val)` in the fallback branch
of the set trap.  On a host element this is the DOM attribute-set (the
method is inherited from the element prototype); the plain SSVG session
instance has no such method anywhere on its prototype chain, so the call
raises a TypeError and nothing is mutated. -/
def setAttributeCall (st : State) (t : Target) (name : String) (v : JSValue) :
    State × Option JSError :=
  match t with
  | .elem i => (setAttribute st i name (jsToString v), none)
  | .session => (st, some .typeError)

/-- `SSVGProxyHandler.set(instance, propName, val)`: when `propName` names
a writable own property of the target, assign it normally; otherwise
forward to `instance.setAttribute`.  The returned `Option JSError` records
an error thrown inside the trap body; the trap itself has no return
statement (see `setTrapReturn`). -/
def handlerSet (st : State) (t : Target) (propName : String) (v : JSValue) :
    State × Option JSError :=
  match lookupProp (ownProps st t) propName with
  | some d =>
    if d.writable then (setOwnProp st t propName v, none)
    else setAttributeCall st t propName v
  | none => setAttributeCall st t propName v

/-- Helper for the set trap's own-property test. -/
def isWritableOwn (st : State) (t : Target) (name : String) : Bool :=
  match lookupProp (ownProps st t) name with
  | some d => d.writable
  | none => false

/-- The value the set trap returns to the proxy machinery: its body has no
return statement, so the call evaluates to JS `undefined`. -/
def setTrapReturn : JSValue := JSValue.undefined

/-- ECMAScript ToBoolean, applied by the proxy [[Set]] internal method to
the trap's return value. -/
def toBoolean : JSValue → Bool
  | .undefined => false
  | .str s => !(s == "")
  | .num n => !(n == 0)
  | _ => true

/-- A strict-mode assignment `proxy[name] = v` through the proxy [[Set]]
machinery: run the set trap; an error thrown inside it propagates; when
the trap completes, its return value is converted with ToBoolean and a
false result makes the strict-mode assignment throw a TypeError — after
the trap's mutation has already been applied. -/
def strictAssign (st : State) (t : Target) (name : String) (v : JSValue) :
    State × Option JSError :=
  match handlerSet st t name v with
  | (st1, some e) => (st1, some e)
  | (st1, none) =>
    if toBoolean setTrapReturn then (st1, none) else (st1, some .typeError)

/-- `new SSVG(attrs)`: the class field initializer creates the `svg`
container node and installs it as the writable instance field `root`; the
constructor then applies the initial attribute mapping to the container.
The result is the session state the proxy handler operates on. -/
def newSSVG (attrs : List (String × JSValue)) : State :=
  let st0 : State := { nodes := [], sessionProps := [] }
  let rid := (createElementNS st0 "svg").2
  let st1 := (createElementNS st0 "svg").1
  let st2 : State := { st1 with sessionProps := [("root", ⟨true, .node rid⟩)] }
  setAttrsFold st2 rid attrs

/-- A target is live in a state when the node it wraps exists (the session
target is always live). -/
def targetLive (st : State) : Target → Prop
  | .session => True
  | .elem i => i < st.nodes.length

/-! ## Basic facts about the host primitives -/

lemma lt_of_getq {α : Type} {l : List α} {i : Nat} {a : α} (h : l[i]? = some a) :
    i < l.length := by
  by_contra hn
  rw [List.getElem?_eq_none (Nat.le_of_not_lt hn)] at h
  cases h

lemma getq_concat_ne {α : Type} {l : List α} {a : α} {j : Nat} (h : j ≠ l.length) :
    (l ++ [a])[j]? = l[j]? := by
  rcases Nat.lt_or_ge j l.length with hj | hj
  · simp [List.getElem?_append, hj]
  · have hj2 : l.length < j := lt_of_le_of_ne hj (fun he => h he.symm)
    have h1 : (l ++ [a])[j]? = none := List.getElem?_eq_none (by simp; omega)
    have h2 : l[j]? = none := List.getElem?_eq_none hj
    rw [h1, h2]

lemma getNode?_updateNode_self (st : State) (i : NodeId) (f : DomNode → DomNode) :
    getNode? (updateNode st i f) i = (getNode? st i).map f := by
  unfold updateNode getNode?
  cases h : st.nodes[i]? with
  | none => simp [h]
  | some nd => simp [h, List.getElem?_set_self (lt_of_getq h)]

lemma getNode?_updateNode_ne (st : State) {i j : NodeId} (f : DomNode → DomNode)
    (h : i ≠ j) : getNode? (updateNode st i f) j = getNode? st j := by
  unfold updateNode getNode?
  cases hx : st.nodes[i]? with
  | none => simp
  | some nd => simp [List.getElem?_set_ne h]

lemma sessionProps_updateNode (st : State) (i : NodeId) (f : DomNode → DomNode) :
    (updateNode st i f).sessionProps = st.sessionProps := by
  unfold updateNode
  cases st.nodes[i]? <;> rfl

lemma length_updateNode (st : State) (i : NodeId) (f : DomNode → DomNode) :
    (updateNode st i f).nodes.length = st.nodes.length := by
  unfold updateNode
  cases st.nodes[i]? <;> simp

lemma getNode?_setAttrsFold_self (es : List (String × JSValue)) (st : State) (i : NodeId) :
    getNode? (setAttrsFold st i es) i =
      (getNode? st i).map (fun nd =>
        { nd with attrs := es.foldl (fun a p => setAttrList a p.1 (jsToString p.2)) nd.attrs }) := by
  induction es generalizing st with
  | nil => cases h : getNode? st i <;> simp [setAttrsFold, h]
  | cons e rest ih =>
    simp only [setAttrsFold] at ih ⊢
    simp only [List.foldl_cons]
    rw [ih, setAttribute, getNode?_updateNode_self]
    cases h : getNode? st i <;> simp

lemma getNode?_setAttrsFold_ne (es : List (String × JSValue)) (st : State) {i j : NodeId}
    (h : i ≠ j) : getNode? (setAttrsFold st i es) j = getNode? st j := by
  induction es generalizing st with
  | nil => rfl
  | cons e rest ih =>
    simp only [setAttrsFold] at ih ⊢
    simp only [List.foldl_cons]
    rw [ih, setAttribute, getNode?_updateNode_ne _ _ h]

lemma sessionProps_setAttrsFold (es : List (String × JSValue)) (st : State) (i : NodeId) :
    (setAttrsFold st i es).sessionProps = st.sessionProps := by
  induction es generalizing st with
  | nil => rfl
  | cons e rest ih =>
    simp only [setAttrsFold] at ih ⊢
    simp only [List.foldl_cons]
    rw [ih, setAttribute, sessionProps_updateNode]

lemma length_setAttrsFold (es : List (String × JSValue)) (st : State) (i : NodeId) :
    (setAttrsFold st i es).nodes.length = st.nodes.length := by
  induction es generalizing st with
  | nil => rfl
  | cons e rest ih =>
    simp only [setAttrsFold] at ih ⊢
    simp only [List.foldl_cons]
    rw [ih, setAttribute, length_updateNode]

/-! ## Attribute-list facts -/

/-- The attribute list an entry loop leaves behind, starting from `a`. -/
def applyAttrs (a : List (String × String)) (es : List (String × JSValue)) :
    List (String × String) :=
  es.foldl (fun acc p => setAttrList acc p.1 (jsToString p.2)) a

lemma getAttrList_setAttrList_same (a : List (String × String)) (n v : String) :
    getAttrList (setAttrList a n v) n = some v := by
  induction a with
  | nil => simp [setAttrList, getAttrList]
  | cons p rest ih =>
    cases h : (p.1 == n) with
    | true => simp [setAttrList, h, getAttrList]
    | false =>
      simp only [setAttrList, h, Bool.false_eq_true, if_false]
      simpa [getAttrList, h] using ih

lemma setAttrList_of_not_mem (a : List (String × String)) (n v : String)
    (h : n ∉ a.map Prod.fst) : setAttrList a n v = a ++ [(n, v)] := by
  induction a with
  | nil => simp [setAttrList]
  | cons p rest ih =>
    simp only [List.map_cons, List.mem_cons, not_or] at h
    have hb : (p.1 == n) = false := by
      simp only [beq_eq_false_iff_ne]
      exact fun he => h.1 he.symm
    simp [setAttrList, hb, ih h.2]

lemma applyAttrs_of_disjoint (es : List (String × JSValue)) (a : List (String × String))
    (hnd : (es.map Prod.fst).Nodup)
    (hdisj : ∀ k ∈ es.map Prod.fst, k ∉ a.map Prod.fst) :
    applyAttrs a es = a ++ es.map (fun p => (p.1, jsToString p.2)) := by
  induction es generalizing a with
  | nil => simp [applyAttrs]
  | cons e rest ih =>
    simp only [applyAttrs, List.foldl_cons]
    have hstep : setAttrList a e.1 (jsToString e.2) = a ++ [(e.1, jsToString e.2)] :=
      setAttrList_of_not_mem a _ _ (hdisj e.1 (by simp))
    rw [hstep]
    have hnd' : (rest.map Prod.fst).Nodup := (List.nodup_cons.mp (by simpa using hnd)).2
    have hhead : e.1 ∉ rest.map Prod.fst := (List.nodup_cons.mp (by simpa using hnd)).1
    have hdisj' : ∀ k ∈ rest.map Prod.fst, k ∉ (a ++ [(e.1, jsToString e.2)]).map Prod.fst := by
      intro k hk
      simp only [List.map_append, List.mem_append, List.map_cons, List.map_nil,
        List.mem_singleton, not_or]
      refine ⟨hdisj k (by simp [hk]), ?_⟩
      exact fun he => hhead (he ▸ hk)
    have := ih (a ++ [(e.1, jsToString e.2)]) hnd' hdisj'
    simp only [applyAttrs] at this
    rw [this, List.append_assoc]
    rfl

/-! ## Congruence facts for ordinary property resolution -/

lemma getProp_congr_session {st st' : State} (h : st'.sessionProps = st.sessionProps)
    (name : String) : getProp st' Target.session name = getProp st Target.session name := by
  simp [getProp, ownProps, h]

lemma getProp_congr_elem {st st' : State} {i : NodeId} (h : getNode? st' i = getNode? st i)
    (name : String) : getProp st' (Target.elem i) name = getProp st (Target.elem i) name := by
  simp [getProp, ownProps, h]

/-! ## Shape of the get trap's two outcomes -/

lemma handlerGet_valid (st : State) (t : Target) {pname k : String} {isC : Bool}
    (hp : parsePropName pname = some (isC, k))
    (hv : windowHasOwn (className k) = true) :
    handlerGet st t pname = .ok (.creator isC t (toLowerStr k)) := by
  simp [handlerGet, hp, hv]

lemma handlerGet_invalid (st : State) (t : Target) {pname k : String} {isC : Bool}
    (hp : parsePropName pname = some (isC, k))
    (hv : windowHasOwn (className k) = false) :
    handlerGet st t pname = .ok (bindTo t (getProp st t pname)) := by
  simp only [handlerGet, hp, hv, Bool.not_false, if_true]
  cases hc : getProp st t pname <;> simp [isCallable, bindTo]

lemma handlerGet_root_self (st : State) (i : NodeId) (nd : DomNode)
    (h : getNode? st i = some nd)
    (hp : lookupProp nd.props "root" = some ⟨false, JSValue.node i⟩) :
    handlerGet st (Target.elem i) "root" = .ok (JSValue.node i) := by
  have hparse : parsePropName "root" = some (false, "root") := by decide
  have hval : windowHasOwn (className "root") = false := by decide
  rw [handlerGet_invalid st _ hparse hval]
  simp [getProp, ownProps, h, hp, bindTo]

/-! ## Behaviour of a creator call -/

lemma getNode?_create_new (st : State) (k : String) :
    getNode? { st with nodes := st.nodes ++ [freshNode k] } st.nodes.length =
      some (freshNode k) := by
  simp [getNode?]

lemma getNode?_create_old (st : State) (k : String) {j : NodeId} (h : j ≠ st.nodes.length) :
    getNode? { st with nodes := st.nodes ++ [freshNode k] } j = getNode? st j := by
  simp [getNode?, getq_concat_ne h]

lemma getProp_create_fold (st : State) (t : Target) (k : String)
    (es : List (String × JSValue)) (name : String) (hlive : targetLive st t) :
    getProp (setAttrsFold { st with nodes := st.nodes ++ [freshNode k] }
        st.nodes.length es) t name = getProp st t name := by
  cases t with
  | session =>
    apply getProp_congr_session
    rw [sessionProps_setAttrsFold]
  | elem i =>
    have hi : i < st.nodes.length := hlive
    apply getProp_congr_elem
    rw [getNode?_setAttrsFold_ne _ _ (Nat.ne_of_gt hi)]
    exact getNode?_create_old st k (Nat.ne_of_lt hi)

/-- Behaviour of the creator closure when the accessed name carried no
`create` marker (auto-attach): the fresh node ends up with the coerced
attribute list, as the new last child of the node `instance.root` denotes,
and the returned wrapper's `root` property reads back as the fresh node. -/
lemma creator_attach_spec (st : State) (t : Target) (k : String)
    (es : List (String × JSValue)) (pid : NodeId) (pnode : DomNode)
    (hlive : targetLive st t)
    (hroot : getProp st t "root" = JSValue.node pid)
    (hpid : getNode? st pid = some pnode) :
    (callCreator st false t k es).2 = .ok (.handle (.elem st.nodes.length)) ∧
    getNode? (callCreator st false t k es).1 st.nodes.length =
      some ⟨k, applyAttrs [] es, [], some pid,
        [("root", ⟨false, JSValue.node st.nodes.length⟩)]⟩ ∧
    getNode? (callCreator st false t k es).1 pid =
      some { pnode with children := pnode.children ++ [st.nodes.length] } ∧
    handlerGet (callCreator st false t k es).1 (Target.elem st.nodes.length) "root" =
      .ok (JSValue.node st.nodes.length) := by
  have hpidlt : pid < st.nodes.length := lt_of_getq hpid
  have hpidne : pid ≠ st.nodes.length := Nat.ne_of_lt hpidlt
  have hcc : callCreator st false t k es =
      (wrapElement (domAppend (setAttrsFold { st with nodes := st.nodes ++ [freshNode k] }
          st.nodes.length es) pid st.nodes.length) st.nodes.length,
       .ok (.handle (.elem st.nodes.length))) := by
    simp only [callCreator, createElementNS, Bool.false_eq_true, if_false]
    rw [getProp_create_fold st t k es "root" hlive, hroot]
  rw [hcc]
  have hFn : getNode? (setAttrsFold { st with nodes := st.nodes ++ [freshNode k] }
      st.nodes.length es) st.nodes.length =
      some ⟨k, applyAttrs [] es, [], none, []⟩ := by
    rw [getNode?_setAttrsFold_self, getNode?_create_new]
    rfl
  have hFpid : getNode? (setAttrsFold { st with nodes := st.nodes ++ [freshNode k] }
      st.nodes.length es) pid = some pnode := by
    rw [getNode?_setAttrsFold_ne _ _ (Ne.symm hpidne), getNode?_create_old st k hpidne]
    exact hpid
  have hrm : removeFromParent (setAttrsFold { st with nodes := st.nodes ++ [freshNode k] }
      st.nodes.length es) st.nodes.length =
      setAttrsFold { st with nodes := st.nodes ++ [freshNode k] } st.nodes.length es := by
    simp [removeFromParent, hFn]
  have hA : domAppend (setAttrsFold { st with nodes := st.nodes ++ [freshNode k] }
      st.nodes.length es) pid st.nodes.length =
      updateNode (updateNode (setAttrsFold { st with nodes := st.nodes ++ [freshNode k] }
        st.nodes.length es) pid
        (fun pd => { pd with children := pd.children ++ [st.nodes.length] }))
        st.nodes.length (fun cd => { cd with parent := some pid }) := by
    rw [domAppend, hrm]
  have hApid : getNode? (domAppend (setAttrsFold { st with nodes := st.nodes ++ [freshNode k] }
      st.nodes.length es) pid st.nodes.length) pid =
      some { pnode with children := pnode.children ++ [st.nodes.length] } := by
    rw [hA, getNode?_updateNode_ne _ _ (Ne.symm hpidne), getNode?_updateNode_self, hFpid]
    rfl
  have hAn : getNode? (domAppend (setAttrsFold { st with nodes := st.nodes ++ [freshNode k] }
      st.nodes.length es) pid st.nodes.length) st.nodes.length =
      some ⟨k, applyAttrs [] es, [], some pid, []⟩ := by
    rw [hA, getNode?_updateNode_self, getNode?_updateNode_ne _ _ hpidne, hFn]
    rfl
  have hWn : getNode? (wrapElement (domAppend (setAttrsFold
      { st with nodes := st.nodes ++ [freshNode k] } st.nodes.length es) pid
      st.nodes.length) st.nodes.length) st.nodes.length =
      some ⟨k, applyAttrs [] es, [], some pid,
        [("root", ⟨false, JSValue.node st.nodes.length⟩)]⟩ := by
    rw [wrapElement, getNode?_updateNode_self, hAn]
    rfl
  refine ⟨rfl, hWn, ?_, ?_⟩
  · rw [wrapElement, getNode?_updateNode_ne _ _ (Ne.symm hpidne)]
    exact hApid
  · exact handlerGet_root_self _ _ _ hWn rfl

/-- Behaviour of the creator closure when the accessed name carried the
`create` marker: the fresh node gets the coerced attribute list but stays
detached — no existing node of the document changes — and the wrapper is
still returned, its `root` property reading back as the fresh node. -/
lemma creator_detached_spec (st : State) (t : Target) (k : String)
    (es : List (String × JSValue)) :
    (callCreator st true t k es).2 = .ok (.handle (.elem st.nodes.length)) ∧
    getNode? (callCreator st true t k es).1 st.nodes.length =
      some ⟨k, applyAttrs [] es, [], none,
        [("root", ⟨false, JSValue.node st.nodes.length⟩)]⟩ ∧
    (∀ j, j ≠ st.nodes.length → getNode? (callCreator st true t k es).1 j = getNode? st j) ∧
    handlerGet (callCreator st true t k es).1 (Target.elem st.nodes.length) "root" =
      .ok (JSValue.node st.nodes.length) := by
  have hcc : callCreator st true t k es =
      (wrapElement (setAttrsFold { st with nodes := st.nodes ++ [freshNode k] }
          st.nodes.length es) st.nodes.length,
       .ok (.handle (.elem st.nodes.length))) := by
    simp [callCreator, createElementNS]
  rw [hcc]
  have hFn : getNode? (setAttrsFold { st with nodes := st.nodes ++ [freshNode k] }
      st.nodes.length es) st.nodes.length =
      some ⟨k, applyAttrs [] es, [], none, []⟩ := by
    rw [getNode?_setAttrsFold_self, getNode?_create_new]
    rfl
  have hWn : getNode? (wrapElement (setAttrsFold
      { st with nodes := st.nodes ++ [freshNode k] } st.nodes.length es)
      st.nodes.length) st.nodes.length =
      some ⟨k, applyAttrs [] es, [], none,
        [("root", ⟨false, JSValue.node st.nodes.length⟩)]⟩ := by
    rw [wrapElement, getNode?_updateNode_self, hFn]
    rfl
  refine ⟨rfl, hWn, ?_, handlerGet_root_self _ _ _ hWn rfl⟩
  intro j hj
  rw [wrapElement, getNode?_updateNode_ne _ _ (Ne.symm hj),
    getNode?_setAttrsFold_ne _ _ (Ne.symm hj), getNode?_create_old st k hj]

/-! ## Attribute storage is untouched by tree surgery and property writes -/

lemma attrsAt_updateNode (st : State) (i j : NodeId) (f : DomNode → DomNode)
    (hf : ∀ nd, (f nd).attrs = nd.attrs) :
    (getNode? (updateNode st i f) j).map (fun nd => nd.attrs) =
      (getNode? st j).map (fun nd => nd.attrs) := by
  rcases eq_or_ne i j with rfl | hne
  · rw [getNode?_updateNode_self]
    cases getNode? st i <;> simp [hf]
  · rw [getNode?_updateNode_ne _ _ hne]

lemma attrsAt_removeFromParent (st : State) (c j : NodeId) :
    (getNode? (removeFromParent st c) j).map (fun nd => nd.attrs) =
      (getNode? st j).map (fun nd => nd.attrs) := by
  rcases h : getNode? st c with _ | nd
  · simp [removeFromParent, h]
  · rcases hp : nd.parent with _ | p
    · simp [removeFromParent, h, hp]
    · simp only [removeFromParent, h, hp]
      rw [attrsAt_updateNode _ c j
            (fun cd => { cd with parent := none }) (fun _ => rfl),
          attrsAt_updateNode _ p j
            (fun pd => { pd with children := pd.children.filter (fun x => x != c) })
            (fun _ => rfl)]

lemma attrsAt_domAppend (st : State) (p c j : NodeId) :
    (getNode? (domAppend st p c) j).map (fun nd => nd.attrs) =
      (getNode? st j).map (fun nd => nd.attrs) := by
  unfold domAppend
  rw [attrsAt_updateNode _ c j (fun cd => { cd with parent := some p }) (fun _ => rfl),
    attrsAt_updateNode _ p j (fun pd => { pd with children := pd.children ++ [c] })
      (fun _ => rfl),
    attrsAt_removeFromParent]

lemma attrsAt_wrapElement (st : State) (i j : NodeId) :
    (getNode? (wrapElement st i) j).map (fun nd => nd.attrs) =
      (getNode? st j).map (fun nd => nd.attrs) := by
  unfold wrapElement
  refine attrsAt_updateNode _ _ _ _ (fun nd => ?_)
  by_cases h : nd.props.any (fun p => p.1 == "root") <;> simp [h]

lemma getNode?_foldState_new (st : State) (k : String) (es : List (String × JSValue)) :
    getNode? (setAttrsFold { st with nodes := st.nodes ++ [freshNode k] }
        st.nodes.length es) st.nodes.length =
      some ⟨k, applyAttrs [] es, [], none, []⟩ := by
  rw [getNode?_setAttrsFold_self, getNode?_create_new]
  rfl

/-- Whatever else a creator call did (attach, detach, or a failed append),
the fresh node carries exactly the attribute list the entry loop built. -/
lemma attrsAt_callCreator_new (st : State) (isC : Bool) (t : Target) (k : String)
    (es : List (String × JSValue)) :
    (getNode? (callCreator st isC t k es).1 st.nodes.length).map (fun nd => nd.attrs) =
      some (applyAttrs [] es) := by
  have hFn := getNode?_foldState_new st k es
  cases isC with
  | true =>
    simp only [callCreator, createElementNS, if_true]
    rw [attrsAt_wrapElement, hFn]
    rfl
  | false =>
    simp only [callCreator, createElementNS, Bool.false_eq_true, if_false]
    cases hv : getProp (setAttrsFold { st with nodes := st.nodes ++ [freshNode k] }
        st.nodes.length es) t "root" with
    | node pid =>
      simp only [hv]
      rw [attrsAt_wrapElement, attrsAt_domAppend, hFn]
      rfl
    | undefined => simp only [hv]; rw [hFn]; rfl
    | str s => simp only [hv]; rw [hFn]; rfl
    | num m => simp only [hv]; rw [hFn]; rfl
    | fn f b => simp only [hv]; rw [hFn]; rfl
    | creator a b c => simp only [hv]; rw [hFn]; rfl
    | handle h => simp only [hv]; rw [hFn]; rfl

/-! ## Facts about own-property assignment -/

lemma lookupProp_setOwnProps (props : List (String × PropDesc)) (name : String) (v : JSValue) :
    lookupProp (setOwnProps props name v) name =
      (lookupProp props name).map (fun d => ⟨d.writable, v⟩) := by
  induction props with
  | nil => rfl
  | cons p rest ih =>
    cases hb : (p.1 == name) with
    | true => simp [setOwnProps, lookupProp, hb, List.find?_cons]
    | false =>
      simp only [setOwnProps, hb, Bool.false_eq_true, if_false]
      simp only [lookupProp, List.find?_cons, hb] at ih ⊢
      exact ih

lemma ownProps_setOwnProp (st : State) (t : Target) (name : String) (v : JSValue) :
    ownProps (setOwnProp st t name v) t = setOwnProps (ownProps st t) name v := by
  cases t with
  | session => rfl
  | elem i =>
    simp only [setOwnProp, ownProps, getNode?_updateNode_self]
    cases h : getNode? st i <;> simp [setOwnProps]

lemma attrsAt_setOwnProp (st : State) (t : Target) (name : String) (v : JSValue) (j : NodeId) :
    (getNode? (setOwnProp st t name v) j).map (fun nd => nd.attrs) =
      (getNode? st j).map (fun nd => nd.attrs) := by
  cases t with
  | session => rfl
  | elem i => exact attrsAt_updateNode _ i j _ (fun _ => rfl)

lemma bindTo_of_not_callable (t : Target) {v : JSValue} (h : isCallable v = false) :
    bindTo t v = v := by
  cases v with
  | fn f b => exact absurd h (by simp [isCallable])
  | creator a b c => exact absurd h (by simp [isCallable])
  | undefined => rfl
  | str s => rfl
  | num n => rfl
  | node i => rfl
  | handle x => rfl

/-! ## The claims -/

/-- C1: for every known element-kind token — one whose capitalized form
names an existing global SVG interface — reading it (bare, no `create`
marker) on the session handle yields a creator function, and calling that
creator creates a new host node whose local name is the lower-cased token,
appends it as the last child of the session's root container node, and
returns a handle whose `root` is the new node. -/
theorem claim1_kind_call_creates_and_appends
    (st : State) (pname k : String) (pid : NodeId) (pnode : DomNode)
    (hp : parsePropName pname = some (false, k))
    (hv : windowHasOwn (className k) = true)
    (hroot : getProp st Target.session "root" = JSValue.node pid)
    (hpid : getNode? st pid = some pnode) :
    handlerGet st Target.session pname = .ok (.creator false Target.session (toLowerStr k)) ∧
    (callCreator st false Target.session (toLowerStr k) []).2 =
      .ok (.handle (.elem st.nodes.length)) ∧
    getNode? (callCreator st false Target.session (toLowerStr k) []).1 st.nodes.length =
      some ⟨(toLowerStr k), [], [], some pid,
        [("root", ⟨false, JSValue.node st.nodes.length⟩)]⟩ ∧
    getNode? (callCreator st false Target.session (toLowerStr k) []).1 pid =
      some { pnode with children := pnode.children ++ [st.nodes.length] } ∧
    handlerGet (callCreator st false Target.session (toLowerStr k) []).1
      (Target.elem st.nodes.length) "root" = .ok (JSValue.node st.nodes.length) := by
  obtain ⟨h1, h2, h3, h4⟩ :=
    creator_attach_spec st Target.session (toLowerStr k) [] pid pnode trivial hroot hpid
  exact ⟨handlerGet_valid st _ hp hv, h1, h2, h3, h4⟩

/-- C1 witness: on a fresh session, `session.circle()` creates a `circle`
node appended as the last child of the `svg` container, and the returned
handle's `root` is the new node. -/
theorem claim1_witness :
    parsePropName "circle" = some (false, "circle") ∧
    windowHasOwn (className "circle") = true ∧
    handlerGet (newSSVG []) Target.session "circle" =
      .ok (.creator false Target.session "circle") ∧
    (callCreator (newSSVG []) false Target.session "circle" []).2 =
      .ok (.handle (.elem 1)) ∧
    getNode? (callCreator (newSSVG []) false Target.session "circle" []).1 1 =
      some ⟨"circle", [], [], some 0, [("root", ⟨false, JSValue.node 1⟩)]⟩ ∧
    getNode? (callCreator (newSSVG []) false Target.session "circle" []).1 0 =
      some ⟨"svg", [], [1], none, []⟩ ∧
    handlerGet (callCreator (newSSVG []) false Target.session "circle" []).1
      (Target.elem 1) "root" = .ok (JSValue.node 1) := by
  have h := claim1_kind_call_creates_and_appends (newSSVG []) "circle" "circle" 0
    ⟨"svg", [], [], none, []⟩ (by decide) (by decide) (by decide) (by decide)
  rw [show toLowerStr "circle" = "circle" from by decide] at h
  exact ⟨by decide, by decide, h.1, h.2.1, h.2.2.1, h.2.2.2.1, h.2.2.2.2⟩

/-- C2: for every known element-kind token, reading the `create`-marked
name on any handle yields a creator whose call creates a new host node of
the lower-cased local name that is appended nowhere (it stays detached and
every pre-existing node is untouched), and a new element wrapper around
the node is returned all the same. -/
theorem claim2_create_kind_detached
    (st : State) (t : Target) (pname k : String)
    (hp : parsePropName pname = some (true, k))
    (hv : windowHasOwn (className k) = true) :
    handlerGet st t pname = .ok (.creator true t (toLowerStr k)) ∧
    (callCreator st true t (toLowerStr k) []).2 = .ok (.handle (.elem st.nodes.length)) ∧
    getNode? (callCreator st true t (toLowerStr k) []).1 st.nodes.length =
      some ⟨(toLowerStr k), [], [], none,
        [("root", ⟨false, JSValue.node st.nodes.length⟩)]⟩ ∧
    (∀ j, j ≠ st.nodes.length →
      getNode? (callCreator st true t (toLowerStr k) []).1 j = getNode? st j) ∧
    handlerGet (callCreator st true t (toLowerStr k) []).1
      (Target.elem st.nodes.length) "root" = .ok (JSValue.node st.nodes.length) := by
  obtain ⟨h1, h2, h3, h4⟩ := creator_detached_spec st t (toLowerStr k) []
  exact ⟨handlerGet_valid st _ hp hv, h1, h2, h3, h4⟩

/-- C2 witness: `session.createCircle()` on a fresh session returns a
wrapper around a detached `circle` node with no parent, and the `svg`
container keeps no children. -/
theorem claim2_witness :
    parsePropName "createCircle" = some (true, "Circle") ∧
    windowHasOwn (className "Circle") = true ∧
    handlerGet (newSSVG []) Target.session "createCircle" =
      .ok (.creator true Target.session "circle") ∧
    (callCreator (newSSVG []) true Target.session "circle" []).2 =
      .ok (.handle (.elem 1)) ∧
    getNode? (callCreator (newSSVG []) true Target.session "circle" []).1 1 =
      some ⟨"circle", [], [], none, [("root", ⟨false, JSValue.node 1⟩)]⟩ ∧
    getNode? (callCreator (newSSVG []) true Target.session "circle" []).1 0 =
      some ⟨"svg", [], [], none, []⟩ := by
  have h := claim2_create_kind_detached (newSSVG []) Target.session "createCircle" "Circle"
    (by decide) (by decide)
  rw [show toLowerStr "Circle" = "circle" from by decide] at h
  exact ⟨by decide, by decide, h.1, h.2.1, h.2.2.1, (h.2.2.2.1 0 (by decide)).trans (by decide)⟩

/-- C7: for every accessed name whose candidate `SVG<Kind>Element`
interface does not exist in the host environment, the read is not an
error: it falls through to ordinary property resolution on the underlying
target — a callable value comes back bound to the target, any other value
comes back as-is (so a nonexistent property reads as `undefined`, never as
an element handle). -/
theorem claim7_unknown_kind_falls_through
    (st : State) (t : Target) (pname k : String) (isC : Bool)
    (hp : parsePropName pname = some (isC, k))
    (hv : windowHasOwn (className k) = false) :
    handlerGet st t pname = .ok (bindTo t (getProp st t pname)) ∧
    (isCallable (getProp st t pname) = false →
      handlerGet st t pname = .ok (getProp st t pname)) := by
  refine ⟨handlerGet_invalid st t hp hv, fun hc => ?_⟩
  rw [handlerGet_invalid st t hp hv, bindTo_of_not_callable t hc]

/-- C7 witness: `session.bogus` reads back as `undefined` (not a handle),
and reading an element's host method `setAttribute` returns it bound to
that element. -/
theorem claim7_witness :
    parsePropName "bogus" = some (false, "bogus") ∧
    windowHasOwn (className "bogus") = false ∧
    getProp (newSSVG []) Target.session "bogus" = JSValue.undefined ∧
    handlerGet (newSSVG []) Target.session "bogus" = .ok JSValue.undefined ∧
    handlerGet (callCreator (newSSVG []) false Target.session "circle" []).1
      (Target.elem 1) "setAttribute" =
      .ok (.fn "setAttribute" (some (Target.elem 1))) := by
  have h1 := (claim7_unknown_kind_falls_through (newSSVG []) Target.session "bogus" "bogus"
    false (by decide) (by decide)).2 (by decide)
  have h2 := (claim7_unknown_kind_falls_through
    ((callCreator (newSSVG []) false Target.session "circle" []).1)
    (Target.elem 1) "setAttribute" "setAttribute" false (by decide) (by decide)).1
  exact ⟨by decide, by decide, by decide, h1, h2⟩

/-- C8: `session.root` reads back the top-level container node created at
session construction (the `svg` node carrying the constructor's attribute
mapping, the only node the constructor creates), and every repeated read —
in any later state whose session object still carries the same instance
fields — returns the identical node reference without re-creating
anything. -/
theorem claim8_root_read_stable (attrs : List (String × JSValue)) :
    handlerGet (newSSVG attrs) Target.session "root" = .ok (JSValue.node 0) ∧
    getNode? (newSSVG attrs) 0 = some ⟨"svg", applyAttrs [] attrs, [], none, []⟩ ∧
    (newSSVG attrs).nodes.length = 1 ∧
    (∀ st' : State, st'.sessionProps = (newSSVG attrs).sessionProps →
      handlerGet st' Target.session "root" = .ok (JSValue.node 0)) := by
  have hread : ∀ st' : State, st'.sessionProps = [("root", ⟨true, JSValue.node 0⟩)] →
      handlerGet st' Target.session "root" = .ok (JSValue.node 0) := by
    intro st' hs
    rw [handlerGet_invalid st' _
      (by decide : parsePropName "root" = some (false, "root"))
      (by decide : windowHasOwn (className "root") = false)]
    simp [getProp, ownProps, hs, lookupProp, bindTo]
  have hsess : (newSSVG attrs).sessionProps = [("root", ⟨true, JSValue.node 0⟩)] := by
    simp only [newSSVG]
    rw [sessionProps_setAttrsFold]
    rfl
  refine ⟨hread _ hsess, ?_, ?_, fun st' h => hread st' (h.trans hsess)⟩
  · simp only [newSSVG, createElementNS, List.length_nil, List.nil_append]
    rw [getNode?_setAttrsFold_self]
    rfl
  · simp only [newSSVG, createElementNS, List.length_nil, List.nil_append]
    rw [length_setAttrsFold]
    rfl

/-- C8 witness: on a session constructed with a `width` attribute, the
first `root` read and a repeated read after creating a circle both return
node 0. -/
theorem claim8_witness :
    handlerGet (newSSVG [("width", JSValue.num 500)]) Target.session "root" =
      .ok (JSValue.node 0) ∧
    handlerGet (callCreator (newSSVG [("width", JSValue.num 500)]) false
        Target.session "circle" []).1 Target.session "root" = .ok (JSValue.node 0) := by
  have h := claim8_root_read_stable [("width", JSValue.num 500)]
  exact ⟨h.1, h.2.2.2 _ (by decide)⟩

/-- C9 (implicit): the element-kind validity test runs before ordinary
property lookup on reads, so any name whose capitalized form names an
existing global SVG interface returns a creator function on every handle
and in every state — shadowing whatever real property or method of that
name the wrapped object carries. -/
theorem claim9_valid_kind_shadows
    (st : State) (t : Target) (pname k : String) (isC : Bool)
    (hp : parsePropName pname = some (isC, k))
    (hv : windowHasOwn (className k) = true) :
    handlerGet st t pname = .ok (.creator isC t (toLowerStr k)) :=
  handlerGet_valid st t hp hv

/-- C9 witness: `style`, `title` and `a` all name global SVG interfaces,
so they read back as creators; in particular a target carrying a real own
property named `style` still gets the creator, not that property's
value. -/
theorem claim9_witness :
    windowHasOwn (className "style") = true ∧
    windowHasOwn (className "title") = true ∧
    windowHasOwn (className "a") = true ∧
    getProp { nodes := [], sessionProps := [("style", ⟨true, JSValue.str "shadowed"⟩)] }
      Target.session "style" = JSValue.str "shadowed" ∧
    handlerGet { nodes := [], sessionProps := [("style", ⟨true, JSValue.str "shadowed"⟩)] }
      Target.session "style" = .ok (.creator false Target.session "style") ∧
    handlerGet (newSSVG []) Target.session "title" =
      .ok (.creator false Target.session "title") ∧
    handlerGet (newSSVG []) Target.session "a" =
      .ok (.creator false Target.session "a") := by
  refine ⟨by decide, by decide, by decide, by decide, ?_, ?_, ?_⟩
  · have h := claim9_valid_kind_shadows
      { nodes := [], sessionProps := [("style", ⟨true, JSValue.str "shadowed"⟩)] }
      Target.session "style" "style" false (by decide) (by decide)
    rw [show toLowerStr "style" = "style" from by decide] at h
    exact h
  · have h := claim9_valid_kind_shadows (newSSVG []) Target.session "title" "title" false
      (by decide) (by decide)
    rw [show toLowerStr "title" = "title" from by decide] at h
    exact h
  · have h := claim9_valid_kind_shadows (newSSVG []) Target.session "a" "a" false
      (by decide) (by decide)
    rw [show toLowerStr "a" = "a" from by decide] at h
    exact h

/-- C3 counterexample: the claim quantifies over every handle, but on the
session handle the fallback branch calls `instance.setAttribute`, which the
plain SSVG instance does not have — the assignment raises a TypeError and
no host attribute is set anywhere (in particular, `width` does not name a
writable own property of the session, so the claim's hypothesis holds at
this input, yet no attribute-set is performed). -/
theorem claim3_counterexample :
    isWritableOwn (newSSVG []) Target.session "width" = false ∧
    handlerSet (newSSVG []) Target.session "width" (JSValue.num 500) =
      (newSSVG [], some JSError.typeError) ∧
    (getNode? (newSSVG []) 0).map (fun nd => getAttrList nd.attrs "width") =
      some none := by
  refine ⟨by decide, by decide, by decide⟩

/-- C3 (amended): for every ELEMENT handle and every property name that
does not name a writable own property of the wrapped node (including `r`
and `class`), the assignment forwards to the host's attribute-set call
with the value coerced to its string form, so the attribute reads back as
that string. (On the session handle the same assignment instead raises a
TypeError, since the session object has no attribute-set method.) -/
theorem claim3_attribute_write (st : State) (i : NodeId) (name : String) (v : JSValue)
    (hw : isWritableOwn st (Target.elem i) name = false)
    (hi : i < st.nodes.length) :
    handlerSet st (Target.elem i) name v = (setAttribute st i name (jsToString v), none) ∧
    (getNode? (setAttribute st i name (jsToString v)) i).map
      (fun nd => getAttrList nd.attrs name) = some (some (jsToString v)) := by
  constructor
  · unfold handlerSet
    cases hd : lookupProp (ownProps st (Target.elem i)) name with
    | none => simp [hd, setAttributeCall]
    | some d =>
      have hdw : d.writable = false := by
        unfold isWritableOwn at hw
        rw [hd] at hw
        exact hw
      simp [hd, hdw, setAttributeCall]
  · have hnd : getNode? st i = some st.nodes[i] := by
      simp [getNode?, List.getElem?_eq_getElem hi]
    rw [setAttribute, getNode?_updateNode_self, hnd]
    simp [getAttrList_setAttrList_same]

/-- C3 witness: on a freshly created circle handle, `r = 50` forwards to
`setAttribute` and reads back as the string `"50"`, and `class = 'foo'`
stores a literal `class` attribute with value `foo`. -/
theorem claim3_witness :
    isWritableOwn (callCreator (newSSVG []) false Target.session "circle" []).1
      (Target.elem 1) "r" = false ∧
    handlerSet (callCreator (newSSVG []) false Target.session "circle" []).1
      (Target.elem 1) "r" (JSValue.num 50) =
      (setAttribute (callCreator (newSSVG []) false Target.session "circle" []).1
        1 "r" "50", none) ∧
    (getNode? (setAttribute (callCreator (newSSVG []) false Target.session "circle" []).1
        1 "r" "50") 1).map (fun nd => getAttrList nd.attrs "r") = some (some "50") ∧
    (getNode? (setAttribute (callCreator (newSSVG []) false Target.session "circle" []).1
        1 "class" "foo") 1).map (fun nd => getAttrList nd.attrs "class") =
      some (some "foo") := by
  have h1 := claim3_attribute_write
    (callCreator (newSSVG []) false Target.session "circle" []).1 1 "r"
    (JSValue.num 50) (by decide) (by decide)
  have h2 := claim3_attribute_write
    (callCreator (newSSVG []) false Target.session "circle" []).1 1 "class"
    (JSValue.str "foo") (by decide) (by decide)
  exact ⟨by decide, h1.1, h1.2, h2.2⟩

/-- C4: on every handle (session and element alike), assigning to a name
that is a genuine writable own property of the target performs a normal
property assignment — the property's value becomes the assigned value,
its descriptor branch is taken rather than the attribute branch, and no
node's host attribute storage changes. -/
theorem claim4_writable_own_assignment (st : State) (t : Target) (name : String)
    (v : JSValue) (h : isWritableOwn st t name = true) :
    handlerSet st t name v = (setOwnProp st t name v, none) ∧
    (lookupProp (ownProps (setOwnProp st t name v) t) name).map (fun d => d.value) =
      some v ∧
    (∀ j, (getNode? (setOwnProp st t name v) j).map (fun nd => nd.attrs) =
      (getNode? st j).map (fun nd => nd.attrs)) := by
  have hl : ∃ d, lookupProp (ownProps st t) name = some d ∧ d.writable = true := by
    unfold isWritableOwn at h
    cases hd : lookupProp (ownProps st t) name with
    | none => rw [hd] at h; cases h
    | some d =>
      refine ⟨d, rfl, ?_⟩
      rw [hd] at h
      exact h
  obtain ⟨d, hd, hdw⟩ := hl
  refine ⟨?_, ?_, fun j => attrsAt_setOwnProp st t name v j⟩
  · simp [handlerSet, hd, hdw]
  · rw [ownProps_setOwnProp, lookupProp_setOwnProps, hd]
    rfl

/-- C4 witness: the `root` escape hatch is a writable own property of the
session instance, so assigning it performs a plain property write and
leaves the container's attributes untouched. -/
theorem claim4_witness :
    isWritableOwn (newSSVG []) Target.session "root" = true ∧
    handlerSet (newSSVG []) Target.session "root" (JSValue.num 7) =
      (setOwnProp (newSSVG []) Target.session "root" (JSValue.num 7), none) ∧
    (lookupProp (ownProps (setOwnProp (newSSVG []) Target.session "root" (JSValue.num 7))
      Target.session) "root").map (fun d => d.value) = some (JSValue.num 7) := by
  have h := claim4_writable_own_assignment (newSSVG []) Target.session "root"
    (JSValue.num 7) (by decide)
  exact ⟨by decide, h.1, h.2.1⟩

/-- C5: every entry of the attribute mapping passed to a creator call is
applied to the new node as a host attribute with its value string-coerced,
in the mapping's own iteration order, and the node ends up with exactly
those attributes and no others. -/
theorem claim5_attrs_applied_exactly (st : State) (isC : Bool) (t : Target) (k : String)
    (es : List (String × JSValue)) (hnd : (es.map Prod.fst).Nodup) :
    (getNode? (callCreator st isC t k es).1 st.nodes.length).map (fun nd => nd.attrs) =
      some (es.map (fun p => (p.1, jsToString p.2))) := by
  rw [attrsAt_callCreator_new, applyAttrs_of_disjoint es [] hnd (by simp)]
  rfl

/-- C5 witness: `svg.circle({cx: 100, r: 50})` leaves the circle node with
exactly the attributes `cx="100"` and `r="50"`, in that order. -/
theorem claim5_witness :
    ([("cx", JSValue.num 100), ("r", JSValue.num 50)].map Prod.fst).Nodup ∧
    (getNode? (callCreator (newSSVG []) false Target.session "circle"
        [("cx", JSValue.num 100), ("r", JSValue.num 50)]).1 1).map (fun nd => nd.attrs) =
      some [("cx", "100"), ("r", "50")] := by
  have h := claim5_attrs_applied_exactly (newSSVG []) false Target.session "circle"
    [("cx", JSValue.num 100), ("r", JSValue.num 50)] (by decide)
  exact ⟨by decide, h⟩

/-- C6: auto-attach targets the accessed handle's own underlying node, not
the session root: a bare kind name accessed on an element handle appends
the new node as the last child of that element's node, the new node's
parent becoming that element. -/
theorem claim6_auto_attach_to_own_node (st : State) (i : NodeId) (k : String)
    (es : List (String × JSValue)) (pnode : DomNode)
    (hpn : getNode? st i = some pnode)
    (hroot : getProp st (Target.elem i) "root" = JSValue.node i) :
    (callCreator st false (Target.elem i) k es).2 =
      .ok (.handle (.elem st.nodes.length)) ∧
    getNode? (callCreator st false (Target.elem i) k es).1 i =
      some { pnode with children := pnode.children ++ [st.nodes.length] } ∧
    (getNode? (callCreator st false (Target.elem i) k es).1 st.nodes.length).map
      (fun nd => nd.parent) = some (some i) := by
  have hlive : targetLive st (Target.elem i) := lt_of_getq hpn
  obtain ⟨h1, h2, h3, h4⟩ := creator_attach_spec st (Target.elem i) k es i pnode hlive hroot hpn
  refine ⟨h1, h3, ?_⟩
  rw [h2]
  rfl

/-- C6 witness: after `let g = session.g()`, calling `g.circle({cx: 1})`
appends the circle under the `g` node (the circle's parent is `g.root`,
node 1), while `g.root`'s parent is the session container (node 0). -/
theorem claim6_witness :
    getNode? (callCreator (newSSVG []) false Target.session "g" []).1 1 =
      some ⟨"g", [], [], some 0, [("root", ⟨false, JSValue.node 1⟩)]⟩ ∧
    getProp (callCreator (newSSVG []) false Target.session "g" []).1
      (Target.elem 1) "root" = JSValue.node 1 ∧
    (getNode? (callCreator (callCreator (newSSVG []) false Target.session "g" []).1
        false (Target.elem 1) "circle" [("cx", JSValue.num 1)]).1 2).map
      (fun nd => nd.parent) = some (some 1) ∧
    getNode? (callCreator (callCreator (newSSVG []) false Target.session "g" []).1
        false (Target.elem 1) "circle" [("cx", JSValue.num 1)]).1 1 =
      some ⟨"g", [], [2], some 0, [("root", ⟨false, JSValue.node 1⟩)]⟩ := by
  have h := claim6_auto_attach_to_own_node
    (callCreator (newSSVG []) false Target.session "g" []).1 1 "circle"
    [("cx", JSValue.num 1)] ⟨"g", [], [], some 0, [("root", ⟨false, JSValue.node 1⟩)]⟩
    (by decide) (by decide)
  exact ⟨by decide, by decide, h.2.2, h.2.1⟩

/-- C10 (implicit): the set trap's body has no return statement, so it
reports `undefined` to the proxy machinery, which coerces it to `false`;
a strict-mode assignment through the proxy therefore raises a TypeError
even though the trap's mutation (attribute set or property write) has
already been applied — intercepted assignments are not atomic with
respect to this error. -/
theorem claim10_strict_set_throws (st : State) (t : Target) (name : String)
    (v : JSValue) (st1 : State) (h : handlerSet st t name v = (st1, none)) :
    setTrapReturn = JSValue.undefined ∧
    toBoolean setTrapReturn = false ∧
    strictAssign st t name v = (st1, some JSError.typeError) := by
  refine ⟨rfl, rfl, ?_⟩
  simp [strictAssign, h, toBoolean, setTrapReturn]

/-- C10 witness: assigning `r = 50` on a circle handle in strict mode
mutates the attribute and still raises a TypeError. -/
theorem claim10_witness :
    handlerSet (callCreator (newSSVG []) false Target.session "circle" []).1
      (Target.elem 1) "r" (JSValue.num 50) =
      (setAttribute (callCreator (newSSVG []) false Target.session "circle" []).1
        1 "r" "50", none) ∧
    strictAssign (callCreator (newSSVG []) false Target.session "circle" []).1
      (Target.elem 1) "r" (JSValue.num 50) =
      (setAttribute (callCreator (newSSVG []) false Target.session "circle" []).1
        1 "r" "50", some JSError.typeError) ∧
    (getNode? (setAttribute (callCreator (newSSVG []) false Target.session "circle" []).1
        1 "r" "50") 1).map (fun nd => getAttrList nd.attrs "r") = some (some "50") := by
  have h := claim10_strict_set_throws
    (callCreator (newSSVG []) false Target.session "circle" []).1 (Target.elem 1) "r"
    (JSValue.num 50)
    (setAttribute (callCreator (newSSVG []) false Target.session "circle" []).1 1 "r" "50")
    (by decide)
  exact ⟨by decide, h.2.2, by decide⟩

end SSVG
